import Mathlib

/-!
Verification development for the TemplateTrigger repository (src/tt.py).

The embedding translates the pure logic of `Observer` into Lean:
the similarity normalization in `Observer.check`, the tick state machine in
`Observer.update`, the listener registry (`register` / `unregister` /
`_trigger`), the template construction in `Observer.__init__`, and the
run-handle bookkeeping of `Observer.run` / `Observer.stop`.
Screen capture and the OpenCV matcher are external collaborators: their
per-tick result `(location, rawDistance)` enters the embedding as an
explicit argument, and similarity values are modelled as rationals.
-/

set_option autoImplicit false

namespace TT

/-- Match locations are integer pixel pairs, as returned by `cv2.minMaxLoc`. -/
abbrev Loc := ℤ × ℤ

/-- `MAX_DIFF = 3*255*255`, the maximum per-pixel squared difference
across three 8-bit channels (src/tt.py line 6). -/
def MAX_DIFF : ℚ := 3 * 255 * 255

/-- The events an `Observer` can fire, with their location payload. -/
inductive Event where
  | found (loc : Loc)
  | lost (loc : Loc)
  | moved (loc : Loc)
deriving DecidableEq, Repr

/-- The error conditions raised by `Observer` (the Python code raises
`Exception` with distinguishing messages; the spec names them). -/
inductive TTError where
  | invalidTemplate
  | unknownEventKind
  | notRegistered
  | alreadyRunning
  | notRunning
deriving DecidableEq, Repr

/-- `Observer.ON_FOUND = 1`. -/
def ON_FOUND : Nat := 1
/-- `Observer.ON_LOST = 2`. -/
def ON_LOST : Nat := 2
/-- `Observer.ON_MOVE = 3`. -/
def ON_MOVE : Nat := 3
/-- `Observer.TRIGGERS = [ON_FOUND, ON_LOST, ON_MOVE]`. -/
def TRIGGERS : List Nat := [ON_FOUND, ON_LOST, ON_MOVE]

/-- `np.clip(x, 0, 1)`: values below 0 become 0, values above 1 become 1. -/
def clip01 (x : ℚ) : ℚ := min (max x 0) 1

/-- `Observer.check` (src/tt.py lines 43-67), with the screen capture and
`cv2.matchTemplate`/`cv2.minMaxLoc` boundary supplied as the argument `m`:
`m.1` is the best-match location and `m.2` the raw squared-difference value
`val`.  When `sqAlpha = 0` the function returns `((0,0), 1)` before any
capture or matching happens, so the result ignores `m` entirely; otherwise
`similarity = np.clip(1 - val / MAX_DIFF / sqAlpha, 0, 1)`. -/
def check (sqAlpha : ℚ) (m : Loc × ℚ) : Loc × ℚ :=
  if sqAlpha = 0 then ((0, 0), 1)
  else (m.1, clip01 (1 - m.2 / MAX_DIFF / sqAlpha))

/-- `Observer.update` (src/tt.py lines 69-88) with the `check` result
`(loc, sim)` passed in: returns the list of events fired by `_trigger`
calls, in order, together with the new `_lastFound` state. -/
def update (threshold : ℚ) (last : Option Loc) (loc : Loc) (sim : ℚ) :
    List Event × Option Loc :=
  if threshold ≤ sim then
    match last with
    | none => ([Event.found loc], some loc)
    | some l => if loc ≠ l then ([Event.moved loc], some loc) else ([], some loc)
  else
    match last with
    | some l => ([Event.lost l], none)
    | none => ([], none)

/-- Iterate `update` for `n` ticks that all report the same `(loc, sim)`,
collecting every event fired along the way. -/
def updateIter (threshold : ℚ) (loc : Loc) (sim : ℚ) :
    Nat → Option Loc → List Event × Option Loc
  | 0, last => ([], last)
  | n + 1, last =>
    let step := update threshold last loc sim
    let rest := updateIter threshold loc sim n step.2
    (step.1 ++ rest.1, rest.2)

/-- One full tick: `check` followed by the state-machine step of `update`,
with the matcher boundary result `m` made explicit. -/
def tick (threshold sqAlpha : ℚ) (m : Loc × ℚ) (last : Option Loc) :
    List Event × Option Loc :=
  let c := check sqAlpha m
  update threshold last c.1 c.2

/-- Run `tick` over a list of per-tick matcher results, collecting all
events fired. -/
def tickRun (threshold sqAlpha : ℚ) :
    List (Loc × ℚ) → Option Loc → List Event × Option Loc
  | [], last => ([], last)
  | m :: ms, last =>
    let step := tick threshold sqAlpha m last
    let rest := tickRun threshold sqAlpha ms step.2
    (step.1 ++ rest.1, rest.2)

/-- The listener registry `self._fun_register`: one ordered callback list
per event kind, keys exactly `TRIGGERS = [1, 2, 3]`.  Callbacks are drawn
from an arbitrary type with decidable equality (Python compares the
registered functions with `==`). -/
structure FunRegister (Cb : Type) where
  onFound : List Cb
  onLost : List Cb
  onMove : List Cb
deriving DecidableEq, Repr

/-- Dictionary lookup `self._fun_register[trigger]` for a valid trigger. -/
def FunRegister.get {Cb : Type} (r : FunRegister Cb) (t : Nat) : List Cb :=
  if t = ON_FOUND then r.onFound
  else if t = ON_LOST then r.onLost
  else r.onMove

/-- Dictionary update `self._fun_register[trigger] = l` for a valid trigger. -/
def FunRegister.set {Cb : Type} (r : FunRegister Cb) (t : Nat) (l : List Cb) :
    FunRegister Cb :=
  if t = ON_FOUND then { r with onFound := l }
  else if t = ON_LOST then { r with onLost := l }
  else { r with onMove := l }

/-- Python `list.remove(f)`: delete the first element equal to `f`,
or fail (`ValueError`) when no element is equal. -/
def removeFun {Cb : Type} [DecidableEq Cb] (f : Cb) : List Cb → Option (List Cb)
  | [] => none
  | x :: xs => if x = f then some xs else (removeFun f xs).map fun l => x :: l

/-- `Observer.register` (src/tt.py lines 90-100): append `f` to the
trigger's list, or raise on an unknown trigger. -/
def register {Cb : Type} (r : FunRegister Cb) (f : Cb) (t : Nat) :
    Except TTError (FunRegister Cb) :=
  if t ∈ TRIGGERS then .ok (r.set t (r.get t ++ [f]))
  else .error .unknownEventKind

/-- `Observer.unregister` (src/tt.py lines 102-112): `list.remove` the
first occurrence of `f` from the trigger's list; raise `NotRegisteredError`
when `f` is absent and `UnknownEventKindError` on an unknown trigger. -/
def unregister {Cb : Type} [DecidableEq Cb] (r : FunRegister Cb) (f : Cb) (t : Nat) :
    Except TTError (FunRegister Cb) :=
  if t ∈ TRIGGERS then
    match removeFun f (r.get t) with
    | some l => .ok (r.set t l)
    | none => .error .notRegistered
  else .error .unknownEventKind

/-- `Observer._trigger` (src/tt.py lines 114-117) calls the registered
functions of the event kind in list order: the observable dispatch order
for a kind is exactly that kind's list. -/
def triggerSeq {Cb : Type} (r : FunRegister Cb) (t : Nat) : List Cb :=
  r.get t

/-- An image as handed to `Observer.__init__`: `height × width` pixels
with `channels` values per pixel, entry `pixel row col channel`. -/
structure Image where
  height : Nat
  width : Nat
  channels : Nat
  pixel : Nat → Nat → Nat → ℚ

/-- The weight mask of a 4-channel template:
`np.clip(a * (1/255), 0, 1)`, where the alpha channel `a` is channel 3,
split off by `np.split(template, [-1], 2)`. -/
def maskOf (img : Image) (r c : Nat) : ℚ :=
  clip01 (img.pixel r c 3 * (1 / 255))

/-- The per-Observer template state computed by `Observer.__init__`
(src/tt.py lines 24-35): `_template_image`, `_template_mask`, `_sq_alpha`. -/
structure Template where
  templateImage : Nat → Nat → Nat → ℚ
  mask : Option (Nat → Nat → ℚ)
  sqAlpha : ℚ

/-- `Observer.__init__` (src/tt.py lines 24-35): with 4 channels, split
off the alpha channel, build the clipped mask and `sqAlpha` as the sum of
squared mask values (`np.sum(np.square(mask))`); with 3 channels, no mask
and `sqAlpha = np.prod(shape[:2])`, the pixel count; any other channel
count raises `InvalidTemplateError`. -/
def observerInit (img : Image) : Except TTError Template :=
  if img.channels = 4 then
    .ok { templateImage := img.pixel
          mask := some (maskOf img)
          sqAlpha := ∑ r ∈ Finset.range img.height, ∑ c ∈ Finset.range img.width,
            (maskOf img r c) ^ 2 }
  else if img.channels = 3 then
    .ok { templateImage := img.pixel
          mask := none
          sqAlpha := ((img.height * img.width : ℕ) : ℚ) }
  else .error .invalidTemplate

/-- The `_current_thread` cell of an Observer: `none` while not running,
otherwise the live (thread, stop_event) pair, abstracted as a worker id.
That the cell is a single optional value is the code's invariant that at
most one run handle is live per Observer. -/
structure RunState where
  currentThread : Option Nat
deriving DecidableEq, Repr

/-- `Observer.run` (src/tt.py lines 119-137), restricted to its handle
bookkeeping: raise `AlreadyRunningError` when a handle already exists,
otherwise create a fresh worker (id `h`) and store its handle. -/
def run (s : RunState) (h : Nat) : Except TTError RunState :=
  match s.currentThread with
  | some _ => .error .alreadyRunning
  | none => .ok ⟨some h⟩

/-- `Observer.stop` (src/tt.py lines 139-149), restricted to its handle
bookkeeping: raise `NotRunningError` when no handle exists, otherwise
signal the stop event, join the worker, and clear the handle. -/
def stop (s : RunState) : Except TTError RunState :=
  match s.currentThread with
  | none => .error .notRunning
  | some _ => .ok ⟨none⟩

end TT

namespace TT

/-- Claim C1: `update` fires events and moves state exactly as the
transition table prescribes — from Absent with `sim ≥ threshold` it fires
FOUND and moves to Present; from Present with `sim ≥ threshold` at the same
location it fires nothing; from Present with `sim ≥ threshold` at a new
location it fires MOVED; from Present with `sim < threshold` it fires LOST
of the last location and moves to Absent; from Absent with
`sim < threshold` it fires nothing — and at most one event fires per tick,
never both FOUND and MOVED. -/
theorem update_matches_transition_table (threshold sim : ℚ) (loc l : Loc) :
    (threshold ≤ sim → update threshold none loc sim = ([Event.found loc], some loc)) ∧
    (threshold ≤ sim → loc = l → update threshold (some l) loc sim = ([], some l)) ∧
    (threshold ≤ sim → loc ≠ l →
      update threshold (some l) loc sim = ([Event.moved loc], some loc)) ∧
    (sim < threshold → update threshold (some l) loc sim = ([Event.lost l], none)) ∧
    (sim < threshold → update threshold none loc sim = ([], none)) ∧
    (∀ last : Option Loc, (update threshold last loc sim).1.length ≤ 1) := by
  refine ⟨fun h => by simp [update, h], fun h he => by simp [update, h, he],
    fun h hne => by simp [update, h, hne],
    fun h => by simp [update, not_le.mpr h],
    fun h => by simp [update, not_le.mpr h], fun last => ?_⟩
  rcases last with _ | l₀
  · by_cases h : threshold ≤ sim
    · simp [update, h]
    · simp [update, h]
  · by_cases h : threshold ≤ sim
    · by_cases he : loc = l₀
      · simp [update, h, he]
      · simp [update, h, he]
    · simp [update, h]

/-- Witness for C1: the transition table evaluated on concrete ticks
(threshold 0, similarity 1, previous location (1,1), new location (0,0)). -/
theorem update_matches_transition_table_witness :
    update 0 none ((0 : ℤ), (0 : ℤ)) 1 = ([Event.found (0, 0)], some (0, 0)) ∧
    update 0 (some ((1 : ℤ), (1 : ℤ))) ((0 : ℤ), (0 : ℤ)) 1 =
      ([Event.moved (0, 0)], some (0, 0)) := by
  refine ⟨(update_matches_transition_table 0 1 (0, 0) (1, 1)).1 (by norm_num), ?_⟩
  exact (update_matches_transition_table 0 1 (0, 0) (1, 1)).2.2.1 (by norm_num) (by decide)

/-- Claim C2: for every raw matcher distance value, including negative
ones and ones exceeding `MAX_DIFF * sqAlpha`, the similarity computed by
`check` lies in `[0,1]`; at an adversarial boundary it is clipped exactly:
a non-positive raw distance yields 1 and a raw distance of at least
`MAX_DIFF * sqAlpha` yields 0 (for positive `sqAlpha`). -/
theorem check_similarity_in_unit_interval (sqAlpha val : ℚ) (loc : Loc) :
    (0 ≤ (check sqAlpha (loc, val)).2 ∧ (check sqAlpha (loc, val)).2 ≤ 1) ∧
    (0 < sqAlpha → val ≤ 0 → (check sqAlpha (loc, val)).2 = 1) ∧
    (0 < sqAlpha → MAX_DIFF * sqAlpha ≤ val → (check sqAlpha (loc, val)).2 = 0) := by
  have hmd : (0 : ℚ) < MAX_DIFF := by norm_num [MAX_DIFF]
  refine ⟨?_, fun hpos hval => ?_, fun hpos hval => ?_⟩
  · by_cases h0 : sqAlpha = 0
    · simp [check, h0]
    · simp only [check, h0, if_false, clip01]
      constructor
      · exact le_min (le_max_right _ _) (by norm_num)
      · exact min_le_right _ _
  · have hne : sqAlpha ≠ 0 := ne_of_gt hpos
    have hdiv : val / MAX_DIFF / sqAlpha ≤ 0 := by
      apply div_nonpos_of_nonpos_of_nonneg
      · exact div_nonpos_of_nonpos_of_nonneg hval (le_of_lt hmd)
      · exact le_of_lt hpos
    have h1 : (1 : ℚ) ≤ 1 - val / MAX_DIFF / sqAlpha := by linarith
    simp only [check, hne, if_false, clip01]
    rw [max_eq_left (by linarith), min_eq_right h1]
  · have hne : sqAlpha ≠ 0 := ne_of_gt hpos
    have hprod : (0 : ℚ) < MAX_DIFF * sqAlpha := mul_pos hmd hpos
    have hdiv : (1 : ℚ) ≤ val / MAX_DIFF / sqAlpha := by
      rw [div_div, le_div_iff₀ hprod]
      linarith
    simp only [check, hne, if_false, clip01]
    rw [max_eq_right (by linarith), min_eq_left (by norm_num)]

/-- Witness for C2: with `sqAlpha = 2`, a negative raw distance `-5` clips
to similarity 1 and an oversized raw distance `MAX_DIFF * 2 + 7` clips to
similarity 0, both inside `[0,1]`. -/
theorem check_similarity_in_unit_interval_witness :
    (0 ≤ (check 2 (((0 : ℤ), (0 : ℤ)), -5)).2 ∧ (check 2 (((0 : ℤ), (0 : ℤ)), -5)).2 ≤ 1) ∧
    (check 2 (((0 : ℤ), (0 : ℤ)), -5)).2 = 1 ∧
    (check 2 (((0 : ℤ), (0 : ℤ)), MAX_DIFF * 2 + 7)).2 = 0 := by
  refine ⟨(check_similarity_in_unit_interval 2 (-5) (0, 0)).1, ?_, ?_⟩
  · exact (check_similarity_in_unit_interval 2 (-5) (0, 0)).2.1 (by norm_num) (by norm_num)
  · exact (check_similarity_in_unit_interval 2 (MAX_DIFF * 2 + 7) (0, 0)).2.2
      (by norm_num) (by norm_num [MAX_DIFF])

/-- On a tick reporting the same location again with similarity at or
above threshold, `update` fires nothing and keeps the state; iterated. -/
theorem updateIter_stable (threshold sim : ℚ) (loc : Loc) (h : threshold ≤ sim) :
    ∀ n : Nat, updateIter threshold loc sim n (some loc) = ([], some loc) := by
  intro n
  induction n with
  | zero => rfl
  | succ k ih => simp [updateIter, update, h, ih]

/-- Claim C8: starting from `Present(loc)`, any number of repeated ticks
that all yield the identical `(loc, sim)` with `sim` at or above threshold
fire no event at all and leave the state at `Present(loc)` throughout;
the single initial FOUND is the one fired on the tick that entered
`Present(loc)` from Absent. -/
theorem repeated_identical_ticks_fire_nothing (threshold sim : ℚ) (loc : Loc) (n : Nat)
    (h : threshold ≤ sim) :
    update threshold none loc sim = ([Event.found loc], some loc) ∧
    updateIter threshold loc sim n (some loc) = ([], some loc) :=
  ⟨by simp [update, h], updateIter_stable threshold sim loc h n⟩

/-- Witness for C8: five repeated ticks at `(2,3)` with similarity 1 and
threshold 0 fire nothing after the initial FOUND. -/
theorem repeated_identical_ticks_fire_nothing_witness :
    update 0 none ((2 : ℤ), (3 : ℤ)) 1 = ([Event.found (2, 3)], some (2, 3)) ∧
    updateIter 0 ((2 : ℤ), (3 : ℤ)) 1 5 (some (2, 3)) = ([], some (2, 3)) :=
  repeated_identical_ticks_fire_nothing 0 1 (2, 3) 5 (by norm_num)

/-- With a zero-weight template (`sqAlpha = 0`) and a threshold at most 1,
every further tick from `Present((0,0))` fires nothing. -/
theorem tickRun_zero_alpha_present (threshold : ℚ) (h : threshold ≤ 1) :
    ∀ ms : List (Loc × ℚ), tickRun threshold 0 ms (some ((0 : ℤ), (0 : ℤ))) =
      ([], some (0, 0)) := by
  intro ms
  induction ms with
  | nil => rfl
  | cons m rest ih => simp [tickRun, tick, check, update, h, ih, -Prod.mk_zero_zero]

/-- Counterexample to claim C3 as stated: the claim quantifies over every
Observer with `sqAlpha = 0`, but an Observer may have a threshold above 1
(the constructor accepts any threshold).  With threshold 2 the constant
similarity 1 is below threshold, so the first tick fires no FOUND at all:
two ticks fire the empty event list and the state never leaves Absent. -/
theorem degenerate_template_counterexample :
    tickRun 2 0 [(((5 : ℤ), (5 : ℤ)), 7), (((1 : ℤ), (2 : ℤ)), 3)] none = ([], none) := by
  decide

/-- Claim C3 (amended: requires `threshold ≤ 1`): with `sqAlpha = 0`,
`check` returns `((0,0), 1)` whatever the capture/matcher would have said,
and for any sequence of ticks the first fires exactly `FOUND((0,0))`,
moving to `Present((0,0))`, and no later tick fires anything — in
particular LOST and MOVED never fire. -/
theorem degenerate_template_always_found (threshold : ℚ) (m : Loc × ℚ)
    (ms : List (Loc × ℚ)) (h : threshold ≤ 1) :
    check 0 m = ((0, 0), 1) ∧
    tickRun threshold 0 (m :: ms) none = ([Event.found (0, 0)], some (0, 0)) := by
  refine ⟨by simp [check], ?_⟩
  simp [tickRun, tick, check, update, h, tickRun_zero_alpha_present threshold h ms,
    -Prod.mk_zero_zero]

/-- Witness for C3 (amended): threshold 0.95, two subsequent ticks with
arbitrary matcher noise — only the initial FOUND fires. -/
theorem degenerate_template_always_found_witness :
    check 0 (((9 : ℤ), (9 : ℤ)), 12345) = ((0, 0), 1) ∧
    tickRun (19/20) 0
        [(((9 : ℤ), (9 : ℤ)), 12345), (((4 : ℤ), (4 : ℤ)), 0), (((7 : ℤ), (0 : ℤ)), 50)]
        none = ([Event.found (0, 0)], some (0, 0)) :=
  degenerate_template_always_found (19/20) ((9, 9), 12345) [((4, 4), 0), ((7, 0), 50)]
    (by norm_num)

/-- Reading back the list just stored for a trigger returns it. -/
theorem FunRegister.get_set {Cb : Type} (r : FunRegister Cb) (t : Nat) (l : List Cb) :
    (r.set t l).get t = l := by
  by_cases h1 : t = ON_FOUND
  · simp [FunRegister.get, FunRegister.set, h1, ON_FOUND]
  · by_cases h2 : t = ON_LOST
    · simp [FunRegister.get, FunRegister.set, h1, h2, ON_FOUND, ON_LOST]
    · simp [FunRegister.get, FunRegister.set, h1, h2]

/-- Storing a trigger's own list back is the identity. -/
theorem FunRegister.set_get {Cb : Type} (r : FunRegister Cb) (t : Nat) :
    r.set t (r.get t) = r := by
  by_cases h1 : t = ON_FOUND
  · simp [FunRegister.get, FunRegister.set, h1, ON_FOUND]
  · by_cases h2 : t = ON_LOST
    · simp [FunRegister.get, FunRegister.set, h1, h2, ON_FOUND, ON_LOST]
    · simp [FunRegister.get, FunRegister.set, h1, h2]

/-- Storing twice at the same trigger keeps only the second store. -/
theorem FunRegister.set_set {Cb : Type} (r : FunRegister Cb) (t : Nat) (a b : List Cb) :
    (r.set t a).set t b = r.set t b := by
  by_cases h1 : t = ON_FOUND
  · simp [FunRegister.set, h1, ON_FOUND]
  · by_cases h2 : t = ON_LOST
    · simp [FunRegister.set, h1, h2, ON_FOUND, ON_LOST]
    · simp [FunRegister.set, h1, h2]

/-- `list.remove` fails exactly when no element equals `f`. -/
theorem removeFun_eq_none {Cb : Type} [DecidableEq Cb] (f : Cb) (l : List Cb)
    (h : f ∉ l) : removeFun f l = none := by
  induction l with
  | nil => rfl
  | cons x xs ih =>
    simp only [List.mem_cons, not_or] at h
    simp [removeFun, Ne.symm h.1, ih h.2]

/-- When `f` occurs in `l`, `list.remove` deletes exactly the first
occurrence: the result is `l.erase f`. -/
theorem removeFun_eq_erase {Cb : Type} [DecidableEq Cb] (f : Cb) (l : List Cb)
    (h : f ∈ l) : removeFun f l = some (l.erase f) := by
  induction l with
  | nil => cases h
  | cons x xs ih =>
    by_cases hx : x = f
    · subst hx
      simp [removeFun, List.erase_cons_head]
    · have hf : f ∈ xs := by
        rcases List.mem_cons.mp h with h1 | h1
        · exact absurd h1.symm hx
        · exact h1
      simp [removeFun, hx, ih hf, List.erase_cons_tail, hx]

/-- Removing `f` from `l ++ [f]` when `f` is absent from `l` deletes
exactly the appended copy. -/
theorem removeFun_append_self {Cb : Type} [DecidableEq Cb] (f : Cb) (l : List Cb)
    (h : f ∉ l) : removeFun f (l ++ [f]) = some l := by
  induction l with
  | nil => simp [removeFun]
  | cons x xs ih =>
    simp only [List.mem_cons, not_or] at h
    simp [removeFun, Ne.symm h.1, ih h.2]

/-- Claim C6: `unregister` removes exactly one occurrence equal to the
callback from the kind's sequence — the count of the callback drops by one
and every other callback's count is unchanged; it fails with
`NotRegisteredError` when no occurrence is found and with
`UnknownEventKindError` when the trigger is not one of the three known
kinds. -/
theorem unregister_spec {Cb : Type} [DecidableEq Cb] (r : FunRegister Cb) (f : Cb)
    (t : Nat) :
    (t ∉ TRIGGERS → unregister r f t = .error .unknownEventKind) ∧
    (t ∈ TRIGGERS → f ∉ r.get t → unregister r f t = .error .notRegistered) ∧
    (t ∈ TRIGGERS → f ∈ r.get t →
      unregister r f t = .ok (r.set t ((r.get t).erase f)) ∧
      ((r.get t).erase f).count f + 1 = (r.get t).count f ∧
      ∀ g : Cb, g ≠ f → ((r.get t).erase f).count g = (r.get t).count g) := by
  refine ⟨fun ht => by simp [unregister, ht], fun ht hf => ?_, fun ht hf => ?_⟩
  · simp [unregister, ht, removeFun_eq_none f _ hf]
  · refine ⟨by simp [unregister, ht, removeFun_eq_erase f _ hf], ?_, fun g hg => ?_⟩
    · have hpos : 0 < (r.get t).count f := List.count_pos_iff.mpr hf
      have := List.count_erase_self f (r.get t)
      omega
    · exact List.count_erase_of_ne hg (r.get t)

/-- Witness for C6: in a registry whose FOUND list is `[0, 1, 0]`,
unregistering callback 0 leaves `[1, 0]` (first occurrence removed, count
of 0 drops from 2 to 1, count of 1 unchanged); unregistering the absent
callback 5 fails with `NotRegisteredError`; trigger 7 fails with
`UnknownEventKindError`. -/
theorem unregister_spec_witness :
    unregister (⟨[0, 1, 0], [], []⟩ : FunRegister ℕ) 0 ON_FOUND =
      .ok ⟨[1, 0], [], []⟩ ∧
    unregister (⟨[0, 1, 0], [], []⟩ : FunRegister ℕ) 5 ON_FOUND =
      .error .notRegistered ∧
    unregister (⟨[0, 1, 0], [], []⟩ : FunRegister ℕ) 0 7 =
      .error .unknownEventKind := by
  refine ⟨?_, ?_, ?_⟩
  · have h := ((unregister_spec (⟨[0, 1, 0], [], []⟩ : FunRegister ℕ) 0 ON_FOUND).2.2
      (by decide) (by decide)).1
    simpa using h
  · exact (unregister_spec (⟨[0, 1, 0], [], []⟩ : FunRegister ℕ) 5 ON_FOUND).2.1
      (by decide) (by decide)
  · exact (unregister_spec (⟨[0, 1, 0], [], []⟩ : FunRegister ℕ) 0 7).1 (by decide)

/-- Counterexample to claim C4 as stated: with callback 0 already
registered for FOUND ahead of callback 1 (dispatch order `[0, 1]`),
registering 0 again and then unregistering 0 leaves dispatch order
`[1, 0]` — `list.remove` took the earliest occurrence, so the prior
dispatch order is not restored. -/
theorem register_unregister_counterexample :
    register (⟨[0, 1], [], []⟩ : FunRegister ℕ) 0 ON_FOUND =
      .ok ⟨[0, 1, 0], [], []⟩ ∧
    unregister (⟨[0, 1, 0], [], []⟩ : FunRegister ℕ) 0 ON_FOUND =
      .ok ⟨[1, 0], [], []⟩ ∧
    triggerSeq (⟨[1, 0], [], []⟩ : FunRegister ℕ) ON_FOUND ≠
      triggerSeq (⟨[0, 1], [], []⟩ : FunRegister ℕ) ON_FOUND := by
  refine ⟨rfl, rfl, by decide⟩

/-- Claim C4 (amended: the callback must not already be registered for
that kind): `register` followed by `unregister` with the same callback and
a valid kind returns the registry to exactly its prior value, hence to its
prior observable dispatch order for every kind. -/
theorem register_unregister_roundtrip {Cb : Type} [DecidableEq Cb]
    (r : FunRegister Cb) (f : Cb) (t : Nat) (ht : t ∈ TRIGGERS)
    (hf : f ∉ r.get t) :
    Except.bind (register r f t) (fun r2 => unregister r2 f t) = .ok r := by
  have hreg : register r f t = .ok (r.set t (r.get t ++ [f])) := by
    simp [register, ht]
  rw [hreg]
  show unregister (r.set t (r.get t ++ [f])) f t = .ok r
  have hget : (r.set t (r.get t ++ [f])).get t = r.get t ++ [f] :=
    FunRegister.get_set r t _
  simp [unregister, ht, hget, removeFun_append_self f _ hf,
    FunRegister.set_set, FunRegister.set_get]

/-- Witness for C4 (amended): FOUND list `[1]`, callback 0 not present;
register 0 then unregister 0 restores the registry exactly. -/
theorem register_unregister_roundtrip_witness :
    Except.bind (register (⟨[1], [], []⟩ : FunRegister ℕ) 0 ON_FOUND)
      (fun r2 => unregister r2 0 ON_FOUND) = .ok ⟨[1], [], []⟩ :=
  register_unregister_roundtrip (⟨[1], [], []⟩ : FunRegister ℕ) 0 ON_FOUND
    (by decide) (by decide)

/-- Claim C10: when the callback is already registered for the kind,
registering it again (appending at the end) and then unregistering it
removes the earliest occurrence, so the kind's dispatch order becomes the
prior order with the first occurrence erased and one copy appended at the
end — the remaining occurrences shift toward the end rather than keeping
their prior positions. -/
theorem unregister_removes_earliest_occurrence {Cb : Type} [DecidableEq Cb]
    (r : FunRegister Cb) (f : Cb) (t : Nat) (ht : t ∈ TRIGGERS)
    (hf : f ∈ r.get t) :
    Except.bind (register r f t) (fun r2 => unregister r2 f t) =
      .ok (r.set t ((r.get t).erase f ++ [f])) ∧
    triggerSeq (r.set t ((r.get t).erase f ++ [f])) t =
      (r.get t).erase f ++ [f] := by
  refine ⟨?_, FunRegister.get_set r t _⟩
  have hreg : register r f t = .ok (r.set t (r.get t ++ [f])) := by
    simp [register, ht]
  rw [hreg]
  show unregister (r.set t (r.get t ++ [f])) f t =
    .ok (r.set t ((r.get t).erase f ++ [f]))
  have hget : (r.set t (r.get t ++ [f])).get t = r.get t ++ [f] :=
    FunRegister.get_set r t _
  have hrem : removeFun f (r.get t ++ [f]) = some ((r.get t).erase f ++ [f]) := by
    rw [removeFun_eq_erase f _ (List.mem_append_left _ hf),
      List.erase_append_left _ hf]
  simp [unregister, ht, hget, hrem, FunRegister.set_set]

/-- Witness for C10: FOUND list `[0, 1]`; registering 0 again and
unregistering 0 yields dispatch order `[1, 0]`, not the prior `[0, 1]`. -/
theorem unregister_removes_earliest_occurrence_witness :
    Except.bind (register (⟨[0, 1], [], []⟩ : FunRegister ℕ) 0 ON_FOUND)
      (fun r2 => unregister r2 0 ON_FOUND) = .ok ⟨[1, 0], [], []⟩ ∧
    triggerSeq (⟨[1, 0], [], []⟩ : FunRegister ℕ) ON_FOUND = [1, 0] := by
  have h := unregister_removes_earliest_occurrence
    (⟨[0, 1], [], []⟩ : FunRegister ℕ) 0 ON_FOUND (by decide) (by decide)
  exact ⟨by simpa using h.1, by simpa using h.2⟩

/-- Every mask value is scaled into `[0,1]`: `clip01` clamps. -/
theorem clip01_mem (x : ℚ) : 0 ≤ clip01 x ∧ clip01 x ≤ 1 :=
  ⟨le_min (le_max_right _ _) (by norm_num), min_le_right _ _⟩

/-- Claim C5: template construction accepts exactly 3- and 4-channel
images.  With 4 channels the alpha channel is split off, the mask is the
alpha channel scaled to `[0,1]` and clamped, and `sqAlpha` is the sum of
squares of mask values; with 3 channels there is no mask and `sqAlpha` is
the pixel count `height × width`; every other channel count fails with
`InvalidTemplateError`. -/
theorem observerInit_spec (img : Image) :
    (img.channels = 4 →
      observerInit img =
        .ok { templateImage := img.pixel
              mask := some (maskOf img)
              sqAlpha := ∑ r ∈ Finset.range img.height, ∑ c ∈ Finset.range img.width,
                (maskOf img r c) ^ 2 } ∧
      ∀ r c : Nat, 0 ≤ maskOf img r c ∧ maskOf img r c ≤ 1) ∧
    (img.channels = 3 →
      observerInit img =
        .ok { templateImage := img.pixel
              mask := none
              sqAlpha := ((img.height * img.width : ℕ) : ℚ) }) ∧
    (img.channels ≠ 4 → img.channels ≠ 3 →
      observerInit img = .error .invalidTemplate) := by
  refine ⟨fun h4 => ⟨by simp [observerInit, h4], fun r c => clip01_mem _⟩,
    fun h3 => by simp [observerInit, h3], fun h4 h3 => by simp [observerInit, h4, h3]⟩

/-- Witness for C5: a 1×2 image with 4 channels whose alpha values are
510 and 51 gets mask values 1 (clamped from 2) and 1/5, so
`sqAlpha = 26/25`; a 2×3 image with 3 channels gets `sqAlpha = 6`; a
2-channel image is rejected with `InvalidTemplateError`. -/
theorem observerInit_spec_witness :
    (∃ t : Template, observerInit
        ⟨1, 2, 4, fun _ c _ => if c = 0 then 510 else 51⟩ = .ok t ∧
      t.sqAlpha = 26 / 25) ∧
    (∃ t : Template, observerInit ⟨2, 3, 3, fun _ _ _ => 9⟩ = .ok t ∧
      t.sqAlpha = 6 ∧ t.mask = none) ∧
    observerInit ⟨2, 3, 2, fun _ _ _ => 9⟩ = .error .invalidTemplate := by
  refine ⟨?_, ?_, ?_⟩
  · have h := (observerInit_spec
      ⟨1, 2, 4, fun _ c _ => if c = 0 then 510 else 51⟩).1 rfl
    refine ⟨_, h.1, ?_⟩
    show (∑ r ∈ Finset.range 1, ∑ c ∈ Finset.range 2,
      (maskOf ⟨1, 2, 4, fun _ c _ => if c = 0 then 510 else 51⟩ r c) ^ 2) = 26 / 25
    norm_num [Finset.sum_range_succ, maskOf, clip01]
  · have h := (observerInit_spec ⟨2, 3, 3, fun _ _ _ => 9⟩).2.1 rfl
    exact ⟨_, h, by norm_num, rfl⟩
  · exact (observerInit_spec ⟨2, 3, 2, fun _ _ _ => 9⟩).2.2 (by decide) (by decide)

/-- Claim C7: `run` fails with `AlreadyRunningError` exactly when a run
handle already exists and otherwise installs a fresh one; `stop` fails
with `NotRunningError` exactly when no handle exists and otherwise clears
it; a successful `stop` immediately followed by `run` succeeds and begins
a fresh cycle.  The handle cell being a single optional value is the
invariant that at most one run handle is live per Observer. -/
theorem run_stop_lifecycle (s s2 : RunState) (h : Nat) :
    (∀ h0 : Nat, s.currentThread = some h0 → run s h = .error .alreadyRunning) ∧
    (s.currentThread = none → run s h = .ok ⟨some h⟩) ∧
    (s.currentThread = none → stop s = .error .notRunning) ∧
    (∀ h0 : Nat, s.currentThread = some h0 → stop s = .ok ⟨none⟩) ∧
    (stop s = .ok s2 → run s2 h = .ok ⟨some h⟩) := by
  rcases s with ⟨_ | h0⟩
  · refine ⟨fun _ hc => Option.noConfusion hc, fun _ => rfl, fun _ => rfl,
      fun _ hc => Option.noConfusion hc, fun hc => Except.noConfusion hc⟩
  · refine ⟨fun _ _ => rfl, fun hc => Option.noConfusion hc,
      fun hc => Option.noConfusion hc, fun _ _ => rfl, fun hc => ?_⟩
    cases hc
    rfl

/-- Witness for C7: starting a running Observer (handle 4) fails,
stopping it succeeds, stopping an idle Observer fails, and stop followed
by start succeeds with a fresh handle 9. -/
theorem run_stop_lifecycle_witness :
    run (⟨some 4⟩ : RunState) 9 = .error .alreadyRunning ∧
    stop (⟨some 4⟩ : RunState) = .ok ⟨none⟩ ∧
    stop (⟨none⟩ : RunState) = .error .notRunning ∧
    run (⟨none⟩ : RunState) 9 = .ok ⟨some 9⟩ := by
  refine ⟨(run_stop_lifecycle ⟨some 4⟩ ⟨none⟩ 9).1 4 rfl,
    (run_stop_lifecycle ⟨some 4⟩ ⟨none⟩ 9).2.2.2.1 4 rfl,
    (run_stop_lifecycle ⟨none⟩ ⟨none⟩ 9).2.2.1 rfl,
    (run_stop_lifecycle ⟨some 4⟩ ⟨none⟩ 9).2.2.2.2 ?_⟩
  exact (run_stop_lifecycle ⟨some 4⟩ ⟨none⟩ 9).2.2.2.1 4 rfl

end TT
